import Mathlib

/-!
Shallow embedding of the Wardrobe Quality Scoring Engine of the
`robes-backend` repository: `app/services/quality/scorers.py`,
`app/services/quality/suggestions.py`, `app/services/quality/engine.py` and
`app/services/quality/types.py`.  Floats are modelled as rationals,
timestamps as integers (seconds), UUID keys as naturals.
-/

namespace WardrobeQuality

attribute [local semireducible] Rat.add Rat.mul Rat.sub Rat.inv

/-- Model of Python `str.lower()` for the ASCII strings this engine
manipulates: lower-case every character of the string. -/
def strToLower (s : String) : String :=
  ⟨s.data.map Char.toLower⟩

/-- `charsStartWith s p` is true when the character list `s` begins with `p`
(model of Python `str.startswith` on the underlying characters). -/
def charsStartWith : List Char → List Char → Bool
  | _, [] => true
  | [], _ :: _ => false
  | c :: cs, p :: ps => c == p && charsStartWith cs ps

/-- `charsContain s p` is true when `p` occurs contiguously inside `s`
(model of Python `in` on strings). -/
def charsContain : List Char → List Char → Bool
  | [], pat => pat.isEmpty
  | c :: cs, pat => charsStartWith (c :: cs) pat || charsContain cs pat

/-- `strStartsWith s p`: the string `s` begins with `p`. -/
def strStartsWith (s p : String) : Bool :=
  charsStartWith s.data p.data

/-- `strContains s p`: `p` occurs as a substring of `s`. -/
def strContains (s p : String) : Bool :=
  charsContain s.data p.data

/-- An active wardrobe item, the fields of `Item` in `app/models/models.py`
that the quality engine reads. -/
structure Item where
  id : Nat
  category : Option String
  kind : String
  base_color : Option String
  pattern : Option String
  style_tags : List String
  event_tags : List String
  season_tags : List String
deriving DecidableEq

/-- `item.category or item.kind` from the scorers (Python `or` treats the
empty string like `None`). -/
def Item.cat (i : Item) : String :=
  match i.category with
  | some c => if c = "" then i.kind else c
  | none => i.kind

/-- One `OutfitItem` association row: the outfit member the scorers read. -/
structure OutfitItem where
  item_id : Nat
  slot : String
deriving DecidableEq

/-- An `Outfit` with its eagerly loaded `items` list. -/
structure Outfit where
  id : Nat
  items : List OutfitItem
deriving DecidableEq

/-- An `OutfitWearLog` row (non-deleted ones are loaded by the engine). -/
structure OutfitWearLog where
  id : Nat
  worn_at : Option Int
  created_at : Int
deriving DecidableEq

/-- An `OutfitWearLogItem` association row. -/
structure OutfitWearLogItem where
  wear_log_id : Nat
  item_id : Nat
deriving DecidableEq

/-- An `ItemWearLog` row; `source_outfit_log_id` is the nullable
back-reference to the `OutfitWearLog` the row was derived from
(column added by migration 0019). -/
structure ItemWearLog where
  id : Nat
  item_id : Nat
  worn_at : Option Int
  created_at : Int
  source_outfit_log_id : Option Nat
deriving DecidableEq

/-- `ScoringContext` from `app/services/quality/types.py`; the diversity
configuration dict is an association list. -/
structure ScoringContext where
  user_id : String
  items : List Item
  outfits : List Outfit
  wear_logs : List OutfitWearLog
  item_wear_logs : List ItemWearLog
  outfit_wear_log_items : List OutfitWearLogItem
  diversity_config : List (String × Bool)
deriving DecidableEq

/-- `ScoringContext.items_count`. -/
def ScoringContext.items_count (ctx : ScoringContext) : Nat :=
  ctx.items.length

/-- `ScoringContext.outfits_count`. -/
def ScoringContext.outfits_count (ctx : ScoringContext) : Nat :=
  ctx.outfits.length

/-- `ScoringContext.wear_logs_count`. -/
def ScoringContext.wear_logs_count (ctx : ScoringContext) : Nat :=
  ctx.wear_logs.length + ctx.item_wear_logs.length

/-- `DimensionResult` from `app/services/quality/types.py`. -/
structure DimensionResult where
  score : ℚ
  confidence : ℚ
  why : String
  contributing_factors : List String
deriving DecidableEq

/-- `BaseScorer._clamp_score`: clamp a value into `[0, 100]`. -/
def clampScore (v : ℚ) : ℚ :=
  max 0 (min 100 v)

/-- Round a rational to the nearest integer, ties to even
(the rounding used by Python float formatting). -/
def pyRound (q : ℚ) : Int :=
  let f : Int := Int.floor q
  let r : ℚ := q - f
  if r < 1/2 then f
  else if 1/2 < r then f + 1
  else if f % 2 = 0 then f else f + 1

/-- Model of the Python format `f"{q:.0f}"` for the non-negative
percentages appearing in the balance explanation. -/
def fmt0f (q : ℚ) : String :=
  toString (pyRound q)

/-- Model of the Python format `f"{q:.1f}"` for the non-negative average
appearing in the versatility explanation. -/
def fmt1f (q : ℚ) : String :=
  let s : Int := pyRound (q * 10)
  toString (s / 10) ++ "." ++ toString (s % 10)

/-- All item ids occurring in outfits, with multiplicity: the multiset
underlying the `item_outfit_count` Counter of `VersatilityScorer.score`. -/
def outfitItemIdsOf (ctx : ScoringContext) : List Nat :=
  ctx.outfits.flatMap (fun o => o.items.map (fun oi => oi.item_id))

/-- `VersatilityScorer.score` from `app/services/quality/scorers.py`. -/
def VersatilityScorer.score (ctx : ScoringContext) : DimensionResult :=
  if ctx.items_count < 5 then
    { score := 0, confidence := 3/10,
      why := "Need at least 5 items to assess versatility",
      contributing_factors := ["insufficient_items"] }
  else
    let ids := outfitItemIdsOf ctx
    if ids = [] then
      { score := 30, confidence := 1/2,
        why := "No outfits created yet. Create outfits to see item versatility.",
        contributing_factors := ["no_outfits"] }
    else
      let keys := ids.dedup
      let items_in_outfits : Nat := keys.length
      let avg_outfits_per_item : ℚ := (ids.length : ℚ) / (max items_in_outfits 1 : ℚ)
      let items_in_multiple : Nat := (keys.filter (fun k => decide (1 < ids.count k))).length
      let reuse_ratio : ℚ := (items_in_multiple : ℚ) / (max items_in_outfits 1 : ℚ)
      let usage_ratio : ℚ := (items_in_outfits : ℚ) / (ctx.items_count : ℚ)
      let base_score := usage_ratio * 40
      let reuse_score := reuse_ratio * 40
      let density_score := min (avg_outfits_per_item / 3) 1 * 20
      let total := clampScore (base_score + reuse_score + density_score)
      let factors :=
        (if 1/2 < reuse_ratio then ["high_reuse"] else []) ++
        (if usage_ratio < 3/10 then ["many_unused_items"] else [])
      let why := toString items_in_multiple ++ " of " ++ toString items_in_outfits ++
        " items appear in multiple outfits. Average " ++ fmt1f avg_outfits_per_item ++
        " outfits per item."
      { score := total,
        confidence := min (9/10) (1/2 + (ctx.outfits_count : ℚ) / 20),
        why := why,
        contributing_factors := factors }

/-- Insert-or-overwrite into an association list, the update behaviour of a
Python dict keyed by wear-log id. -/
def dictInsertNatInt (d : List (Nat × Int)) (k : Nat) (v : Int) : List (Nat × Int) :=
  match d with
  | [] => [(k, v)]
  | (k2, v2) :: rest =>
    if k2 = k then (k2, v) :: rest else (k2, v2) :: dictInsertNatInt rest k v

/-- The `wear_log_timestamps` dict of `UtilizationScorer.score`: wear-log id
to `worn_at or created_at`. -/
def wearLogTimestamps (logs : List OutfitWearLog) : List (Nat × Int) :=
  logs.foldl (fun d log => dictInsertNatInt d log.id (log.worn_at.getD log.created_at)) []

/-- Dict lookup (`dict.get`): the value stored under `k`, if any. -/
def lookupNatInt (d : List (Nat × Int)) (k : Nat) : Option Int :=
  (d.find? (fun p => p.1 == k)).map (fun p => p.2)

/-- `item_wear_count[item_id] += 1` on a Counter represented as an
association list (new keys are appended, as in a Python dict). -/
def bumpCount (d : List (Nat × Nat)) (k : Nat) : List (Nat × Nat) :=
  match d with
  | [] => [(k, 1)]
  | (k2, v2) :: rest =>
    if k2 = k then (k2, v2 + 1) :: rest else (k2, v2) :: bumpCount rest k

/-- The `item_last_worn` update of `UtilizationScorer.score`: record `t` for
`k` when `k` is absent or `t` is strictly later. -/
def updateLastWorn (d : List (Nat × Int)) (k : Nat) (t : Int) : List (Nat × Int) :=
  match d with
  | [] => [(k, t)]
  | (k2, v2) :: rest =>
    if k2 = k then (if v2 < t then (k2, t) else (k2, v2)) :: rest
    else (k2, v2) :: updateLastWorn rest k t

/-- The mutable state of `UtilizationScorer.score`: the `item_wear_count`
Counter and the `item_last_worn` dict. -/
structure UtilState where
  counts : List (Nat × Nat)
  last_worn : List (Nat × Int)
deriving DecidableEq

/-- The first counting loop of `UtilizationScorer.score`: one wear per
`OutfitWearLogItem`, timestamped via `wear_log_timestamps`. -/
def utilOutfitStep (ts : List (Nat × Int)) (st : UtilState) (owli : OutfitWearLogItem) :
    UtilState :=
  { counts := bumpCount st.counts owli.item_id,
    last_worn :=
      match lookupNatInt ts owli.wear_log_id with
      | some t => updateLastWorn st.last_worn owli.item_id t
      | none => st.last_worn }

/-- The second counting loop of `UtilizationScorer.score`: standalone
`ItemWearLog` rows, skipping rows with an outfit back-reference. -/
def utilItemStep (st : UtilState) (log : ItemWearLog) : UtilState :=
  match log.source_outfit_log_id with
  | some _ => st
  | none =>
    { counts := bumpCount st.counts log.item_id,
      last_worn := updateLastWorn st.last_worn log.item_id (log.worn_at.getD log.created_at) }

/-- The state after both counting loops of `UtilizationScorer.score`. -/
def utilState (ctx : ScoringContext) : UtilState :=
  ctx.item_wear_logs.foldl utilItemStep
    (ctx.outfit_wear_log_items.foldl (utilOutfitStep (wearLogTimestamps ctx.wear_logs))
      { counts := [], last_worn := [] })

/-- `items_worn` of `UtilizationScorer.score`: distinct items with at least
one counted wear. -/
def utilItemsWorn (ctx : ScoringContext) : Nat :=
  (utilState ctx).counts.length

/-- `total_wears` of `UtilizationScorer.score`. -/
def utilTotalWears (ctx : ScoringContext) : Nat :=
  ((utilState ctx).counts.map (fun p => p.2)).sum

/-- `UtilizationScorer.score` from `app/services/quality/scorers.py`; `now`
is the `datetime.now(timezone.utc)` read at the start of the call. -/
def UtilizationScorer.score (ctx : ScoringContext) (now : Int) : DimensionResult :=
  if ctx.items_count < 3 then
    { score := 0, confidence := 1/5,
      why := "Need at least 3 items to assess utilization",
      contributing_factors := ["insufficient_items"] }
  else
    let st := utilState ctx
    let total_wears : Nat := (st.counts.map (fun p => p.2)).sum
    let items_worn : Nat := st.counts.length
    let items_never_worn : Int := (ctx.items_count : Int) - (items_worn : Int)
    let thirty_days_ago : Int := now - 30 * 86400
    let neglected : Nat := (st.last_worn.filter (fun p => decide (p.2 < thirty_days_ago))).length
    if total_wears = 0 then
      { score := 20, confidence := 2/5,
        why := "No wear logs recorded yet. Start logging what you wear!",
        contributing_factors := ["no_wear_logs"] }
    else
      let worn_ratio : ℚ := (items_worn : ℚ) / (ctx.items_count : ℚ)
      let active_items : ℚ := (items_worn : ℚ) - (neglected : ℚ)
      let active_ratio : ℚ :=
        if 0 < ctx.items_count then active_items / (ctx.items_count : ℚ) else 0
      let distribution_score : ℚ :=
        if 1 < items_worn then
          let sorted_counts := List.insertionSort (fun a b => a ≤ b) (st.counts.map (fun p => p.2))
          let n : Nat := sorted_counts.length
          let cumulative : ℚ :=
            ((sorted_counts.enum).map (fun p => ((p.1 + 1 : Nat) : ℚ) * (p.2 : ℚ))).sum
          let gini : ℚ :=
            (2 * cumulative) / ((n : ℚ) * (sorted_counts.sum : ℚ)) - ((n : ℚ) + 1) / (n : ℚ)
          (1 - gini) * 30
        else 15
      let worn_score := worn_ratio * 35
      let active_score := active_ratio * 35
      let total := clampScore (worn_score + active_score + distribution_score)
      let factors :=
        (if (ctx.items_count : ℚ) * (3/10) < (items_never_worn : ℚ) then ["many_unworn_items"] else []) ++
        (if (items_worn : ℚ) * (1/2) < (neglected : ℚ) then ["many_neglected_items"] else [])
      let why := toString items_worn ++ " of " ++ toString ctx.items_count ++ " items worn. " ++
        toString items_never_worn ++ " never worn, " ++ toString neglected ++
        " neglected (30+ days)."
      { score := total,
        confidence := min (19/20) (2/5 + (total_wears : ℚ) / 50),
        why := why,
        contributing_factors := factors }

/-- Number of items of the context whose resolved category is `c` (one entry
of the `category_counts` Counter). -/
def countCategory (ctx : ScoringContext) (c : String) : Nat :=
  (ctx.items.filter (fun i => i.cat == c)).length

/-- `CompletenessScorer.CORE_CATEGORIES`; the Python set is iterated in this
fixed order here. -/
def coreCategories : List String :=
  ["top", "bottom", "footwear", "outerwear"]

/-- The `effective_counts` of `CompletenessScorer.score`: a onepiece item
adds to both the top and the bottom count. -/
def effectiveCount (ctx : ScoringContext) (c : String) : Nat :=
  let base := countCategory ctx c
  if (c = "top" ∨ c = "bottom") ∧ 0 < countCategory ctx "onepiece" then
    base + countCategory ctx "onepiece"
  else base

/-- The core categories with zero effective count (`missing` in
`CompletenessScorer.score`). -/
def missingCoreCategories (ctx : ScoringContext) : List String :=
  coreCategories.filter (fun c => decide (effectiveCount ctx c = 0))

/-- The distinct lower-cased event tags across all items (`event_coverage`). -/
def eventCoverage (ctx : ScoringContext) : List String :=
  ((ctx.items.flatMap (fun i => i.event_tags)).map strToLower).dedup

/-- `CompletenessScorer.score` from `app/services/quality/scorers.py`. -/
def CompletenessScorer.score (ctx : ScoringContext) : DimensionResult :=
  if ctx.items_count = 0 then
    { score := 0, confidence := 1/2,
      why := "No items in wardrobe yet",
      contributing_factors := ["empty_wardrobe"] }
  else
    let onepiece_count := countCategory ctx "onepiece"
    let core_present : Nat :=
      (coreCategories.filter (fun c => decide (0 < effectiveCount ctx c))).length
    let core_ratio : ℚ := (core_present : ℚ) / 4
    let variety_score : ℚ :=
      ((coreCategories.map (fun c => min ((effectiveCount ctx c : ℚ) / 3) 1)).sum) / 4
    let event_score : ℚ := min (((eventCoverage ctx).length : ℚ) / 4) 1
    let total := clampScore (core_ratio * 50 + variety_score * 30 + event_score * 20)
    let missing := missingCoreCategories ctx
    let factors :=
      match missing with
      | [] => []
      | m :: _ => ["missing_" ++ m]
    let why := toString core_present ++ "/4 core categories covered" ++
      (if 0 < onepiece_count then " (including " ++ toString onepiece_count ++ " onepiece)" else "") ++
      ". " ++
      (if missing ≠ [] then "Missing: " ++ String.intercalate ", " missing ++ ". " else "") ++
      "Event types: " ++ toString (eventCoverage ctx).length ++ "."
    { score := total,
      confidence := 9/10,
      why := why,
      contributing_factors := factors }

/-- The effective tops count of `BalanceScorer.score` (onepiece included). -/
def effectiveTops (ctx : ScoringContext) : Nat :=
  countCategory ctx "top" + countCategory ctx "onepiece"

/-- The effective bottoms count of `BalanceScorer.score` (onepiece included). -/
def effectiveBottoms (ctx : ScoringContext) : Nat :=
  countCategory ctx "bottom" + countCategory ctx "onepiece"

/-- `BalanceScorer.score` from `app/services/quality/scorers.py`. -/
def BalanceScorer.score (ctx : ScoringContext) : DimensionResult :=
  if ctx.items_count < 5 then
    { score := 50, confidence := 3/10,
      why := "Need more items to assess balance",
      contributing_factors := ["insufficient_items"] }
  else
    let onepiece_count := countCategory ctx "onepiece"
    let tops := effectiveTops ctx
    let bottoms := effectiveBottoms ctx
    let outerwear := countCategory ctx "outerwear"
    let footwear := countCategory ctx "footwear"
    let tb_score : ℚ :=
      if 0 < bottoms then
        let tb_ratio : ℚ := (tops : ℚ) / (bottoms : ℚ)
        if 1 ≤ tb_ratio ∧ tb_ratio ≤ 2 then 40
        else if 1/2 ≤ tb_ratio ∧ tb_ratio ≤ 3 then 25
        else 10
      else if 0 < tops then 5 else 0
    let ow_ratio : ℚ :=
      if 0 < ctx.items_count then (outerwear : ℚ) / (ctx.items_count : ℚ) else 0
    let ow_score : ℚ :=
      if 1/10 ≤ ow_ratio ∧ ow_ratio ≤ 1/4 then 30
      else if 1/20 ≤ ow_ratio ∧ ow_ratio ≤ 7/20 then 20
      else if 0 < outerwear then 10
      else 5
    let fw_ratio : ℚ :=
      if 0 < ctx.items_count then (footwear : ℚ) / (ctx.items_count : ℚ) else 0
    let fw_score : ℚ :=
      if 2/25 ≤ fw_ratio ∧ fw_ratio ≤ 1/5 then 30
      else if 0 < footwear then 15
      else 5
    let total := clampScore (tb_score + ow_score + fw_score)
    let factors :=
      if 0 < bottoms ∧ (3 < (tops : ℚ) / (bottoms : ℚ) ∨ (tops : ℚ) / (bottoms : ℚ) < 1/2) then
        ["imbalanced_tops_bottoms"]
      else []
    let why := "Tops:Bottoms ratio is " ++ toString tops ++ ":" ++ toString bottoms ++
      (if 0 < onepiece_count then " (including " ++ toString onepiece_count ++ " onepiece)" else "") ++
      ". Outerwear " ++ toString outerwear ++ " items (" ++ fmt0f (ow_ratio * 100) ++
      "%), Footwear " ++ toString footwear ++ " items (" ++ fmt0f (fw_ratio * 100) ++ "%)."
    { score := total,
      confidence := 17/20,
      why := why,
      contributing_factors := factors }

/-- `dict.get(key, default)` on the diversity configuration. -/
def cfgGet (cfg : List (String × Bool)) (k : String) (d : Bool) : Bool :=
  ((cfg.find? (fun p => p.1 == k)).map (fun p => p.2)).getD d

/-- The truthy values of `item.base_color` (or `item.pattern`) across the
items: `None` and the empty string are falsy in Python. -/
def truthyValues (vals : List (Option String)) : List String :=
  (vals.filterMap id).filter (fun c => !(c == ""))

/-- `DiversityScorer.score` from `app/services/quality/scorers.py`. -/
def DiversityScorer.score (ctx : ScoringContext) : DimensionResult :=
  if ctx.items_count < 3 then
    { score := 50, confidence := 3/10,
      why := "Need more items to assess diversity",
      contributing_factors := ["insufficient_items"] }
  else
    let config := ctx.diversity_config
    let enabled_attrs := (config.filter (fun p => p.2)).map (fun p => p.1)
    if enabled_attrs = [] then
      { score := 50, confidence := 4/5,
        why := "No diversity attributes enabled in preferences",
        contributing_factors := ["no_attributes_enabled"] }
    else
      let colors := truthyValues (ctx.items.map (fun i => i.base_color))
      let color_part : List ℚ × List String :=
        if cfgGet config "colors" false then
          if colors ≠ [] then
            let unique_colors := colors.dedup.length
            ([min ((unique_colors : ℚ) / 8) 1 * 100],
             if unique_colors < 4 then ["low_color_diversity"] else [])
          else ([], [])
        else ([], [])
      let patterns := truthyValues (ctx.items.map (fun i => i.pattern))
      let pattern_part : List ℚ :=
        if cfgGet config "patterns" true then
          if patterns ≠ [] then
            [min ((patterns.dedup.length : ℚ) / 4) 1 * 100]
          else []
        else []
      let all_seasons := ((ctx.items.flatMap (fun i => i.season_tags)).map strToLower).dedup
      let season_part : List ℚ :=
        if cfgGet config "seasons" true then
          if all_seasons ≠ [] then
            [min ((all_seasons.length : ℚ) / 4) 1 * 100]
          else []
        else []
      let all_styles := ((ctx.items.flatMap (fun i => i.style_tags)).map strToLower).dedup
      let style_part : List ℚ × List String :=
        if cfgGet config "styles" true then
          if all_styles ≠ [] then
            ([min ((all_styles.length : ℚ) / 5) 1 * 100],
             if all_styles.length < 3 then ["low_style_diversity"] else [])
          else ([], [])
        else ([], [])
      let scores := color_part.1 ++ pattern_part ++ season_part ++ style_part.1
      let factors := color_part.2 ++ style_part.2
      if scores = [] then
        { score := 50, confidence := 2/5,
          why := "Not enough attribute data to calculate diversity",
          contributing_factors := ["missing_attribute_data"] }
      else
        { score := clampScore (scores.sum / (scores.length : ℚ)),
          confidence := 7/10,
          why := "Diversity across " ++ toString enabled_attrs.length ++
            " enabled attributes. Scored on: " ++ String.intercalate ", " enabled_attrs ++ ".",
          contributing_factors := factors }

/-- Modelled from the spec: the field `QUALITY_WEIGHT_VERSATILITY` of
`Settings` in `app/core/config.py` is read by the engine but is not declared
in the source tree; the spec fixes the versatility weight at 0.30. -/
def QUALITY_WEIGHT_VERSATILITY : ℚ := 3/10

/-- Modelled from the spec: the field `QUALITY_WEIGHT_UTILIZATION` of
`Settings` is missing from the source tree; the spec fixes it at 0.25. -/
def QUALITY_WEIGHT_UTILIZATION : ℚ := 1/4

/-- Modelled from the spec: the field `QUALITY_WEIGHT_COMPLETENESS` of
`Settings` is missing from the source tree; the spec fixes it at 0.20. -/
def QUALITY_WEIGHT_COMPLETENESS : ℚ := 1/5

/-- Modelled from the spec: the field `QUALITY_WEIGHT_BALANCE` of
`Settings` is missing from the source tree; the spec fixes it at 0.15. -/
def QUALITY_WEIGHT_BALANCE : ℚ := 3/20

/-- Modelled from the spec: the field `QUALITY_WEIGHT_DIVERSITY` of
`Settings` is missing from the source tree; the spec fixes it at 0.10. -/
def QUALITY_WEIGHT_DIVERSITY : ℚ := 1/10

/-- The `dimension_results` mapping built by `QualityEngine.compute_score`:
dimension name to result and weight, in the engine's insertion order. -/
def QualityEngine.dimensionEntries (ctx : ScoringContext) (now : Int) :
    List (String × DimensionResult × ℚ) :=
  [("versatility", (VersatilityScorer.score ctx, QUALITY_WEIGHT_VERSATILITY)),
   ("utilization", (UtilizationScorer.score ctx now, QUALITY_WEIGHT_UTILIZATION)),
   ("completeness", (CompletenessScorer.score ctx, QUALITY_WEIGHT_COMPLETENESS)),
   ("balance", (BalanceScorer.score ctx, QUALITY_WEIGHT_BALANCE)),
   ("diversity", (DiversityScorer.score ctx, QUALITY_WEIGHT_DIVERSITY))]

/-- The `total_score` accumulated by the scorer loop of
`QualityEngine.compute_score`. -/
def QualityEngine.total_score (ctx : ScoringContext) (now : Int) : ℚ :=
  (QualityEngine.dimensionEntries ctx now).foldl
    (fun acc e => acc + e.2.1.score * e.2.2) 0

/-- The `total_confidence` accumulated by the scorer loop of
`QualityEngine.compute_score`. -/
def QualityEngine.total_confidence (ctx : ScoringContext) (now : Int) : ℚ :=
  (QualityEngine.dimensionEntries ctx now).foldl
    (fun acc e => acc + e.2.1.confidence * e.2.2) 0

/-- Two invocations of the scoring pipeline on the same snapshot and clock:
the pair of total scores produced by calling `compute_score` twice. -/
def QualityEngine.computeTwice (ctx : ScoringContext) (now : Int) : ℚ × ℚ :=
  (QualityEngine.total_score ctx now, QualityEngine.total_score ctx now)

/-- `SuggestionData` from `app/services/quality/types.py`; related item ids
keep the numeric model of uuid keys. -/
structure SuggestionData where
  suggestion_type : String
  dimension : String
  priority : Nat
  title : String
  description : String
  why : String
  confidence : ℚ
  expected_impact : Option ℚ := none
  related_item_ids : Option (List Nat) := none
deriving DecidableEq

/-- `SuggestionGenerator._versatility_suggestions`. -/
def SuggestionGenerator.versatility_suggestions (result : DimensionResult) (weight : ℚ)
    (ctx : ScoringContext) : List SuggestionData :=
  (if "no_outfits" ∈ result.contributing_factors then
    [{ suggestion_type := "create_outfit", dimension := "versatility", priority := 1,
       title := "Create your first outfit",
       description := "Combine your items into outfits to track versatility.",
       why := "Creating outfits helps you see which items work well together and identifies pieces that could be styled more ways.",
       confidence := 19/20, expected_impact := some (weight * 20) }]
   else []) ++
  (if "many_unused_items" ∈ result.contributing_factors then
    let used_items : List Nat := outfitItemIdsOf ctx
    let unused : List Nat :=
      (ctx.items.filter (fun i => !(used_items.contains i.id))).map (fun i => i.id)
    if unused ≠ [] then
      [{ suggestion_type := "use_in_outfit", dimension := "versatility", priority := 2,
         title := "Style " ++ toString unused.length ++ " unused items",
         description := "These items haven\x27t been added to any outfit yet.",
         why := "Adding unused items to outfits increases your wardrobe\x27s versatility score and helps you get more value from your clothes.",
         confidence := 9/10, expected_impact := some (weight * 15),
         related_item_ids := some (unused.take 5) }]
    else []
   else [])

/-- The `worn_items` set of `SuggestionGenerator._utilization_suggestions`:
ids worn via outfit logs or via standalone item logs (back-referenced rows
skipped). -/
def wornItemIds (ctx : ScoringContext) : List Nat :=
  ctx.outfit_wear_log_items.map (fun owli => owli.item_id) ++
    (ctx.item_wear_logs.filter (fun log => log.source_outfit_log_id == none)).map
      (fun log => log.item_id)

/-- `SuggestionGenerator._utilization_suggestions`. -/
def SuggestionGenerator.utilization_suggestions (result : DimensionResult) (weight : ℚ)
    (ctx : ScoringContext) : List SuggestionData :=
  (if "no_wear_logs" ∈ result.contributing_factors then
    [{ suggestion_type := "log_wear", dimension := "utilization", priority := 1,
       title := "Start logging what you wear",
       description := "Track your outfits to see utilization patterns.",
       why := "Wear logging reveals which items you actually use versus which sit unworn, helping you make better wardrobe decisions.",
       confidence := 19/20, expected_impact := some (weight * 25) }]
   else []) ++
  (if "many_unworn_items" ∈ result.contributing_factors then
    let worn : List Nat := wornItemIds ctx
    let never_worn : List Nat :=
      (ctx.items.filter (fun i => !(worn.contains i.id))).map (fun i => i.id)
    if never_worn ≠ [] then
      [{ suggestion_type := "wear_more", dimension := "utilization", priority := 2,
         title := "Wear " ++ toString never_worn.length ++ " neglected items",
         description := "These items have never been logged as worn.",
         why := "Regularly wearing all your items improves utilization. Consider whether items you never wear should be donated or styled differently.",
         confidence := 17/20, expected_impact := some (weight * 15),
         related_item_ids := some (never_worn.take 5) }]
    else []
   else [])

/-- `factor.replace("missing_", "")` specialised to the factors the
completeness scorer emits. -/
def stripMissing (f : String) : String :=
  ⟨f.data.drop 8⟩

/-- `SuggestionGenerator._completeness_suggestions`. -/
def SuggestionGenerator.completeness_suggestions (result : DimensionResult) (weight : ℚ) :
    List SuggestionData :=
  ((result.contributing_factors.filter (fun f => strStartsWith f "missing_")).map (fun f =>
    let category := stripMissing f
    { suggestion_type := "add_item", dimension := "completeness", priority := 1,
      title := "Add " ++ category ++ " to your wardrobe",
      description := "You\x27re missing items in the " ++ category ++ " category.",
      why := "A complete wardrobe needs " ++ category ++ ". Adding this category will improve outfit options and completeness score.",
      confidence := 19/20, expected_impact := some (weight * 12) })) ++
  (if "empty_wardrobe" ∈ result.contributing_factors then
    [{ suggestion_type := "add_item", dimension := "completeness", priority := 1,
       title := "Add items to your wardrobe",
       description := "Start by adding your essential clothing items.",
       why := "Building a wardrobe starts with the basics. Add tops, bottoms, and footwear to begin tracking your style.",
       confidence := 19/20, expected_impact := some (weight * 25) }]
   else [])

/-- `SuggestionGenerator._balance_suggestions`. -/
def SuggestionGenerator.balance_suggestions (result : DimensionResult) (weight : ℚ)
    (ctx : ScoringContext) : List SuggestionData :=
  if "imbalanced_tops_bottoms" ∈ result.contributing_factors then
    let tops := effectiveTops ctx
    let bottoms := effectiveBottoms ctx
    if bottoms * 2 < tops then
      [{ suggestion_type := "add_item", dimension := "balance", priority := 2,
         title := "Add more bottoms",
         description := "You have " ++ toString tops ++ " tops but only " ++
           toString bottoms ++ " bottoms.",
         why := "A balanced wardrobe has roughly 1-2 tops per bottom. Adding bottoms will create more outfit combinations.",
         confidence := 9/10, expected_impact := some (weight * 10) }]
    else if tops * 2 < bottoms then
      [{ suggestion_type := "add_item", dimension := "balance", priority := 2,
         title := "Add more tops",
         description := "You have " ++ toString bottoms ++ " bottoms but only " ++
           toString tops ++ " tops.",
         why := "You need more tops to pair with your bottoms. Consider versatile pieces that match multiple bottoms.",
         confidence := 9/10, expected_impact := some (weight * 10) }]
    else []
  else []

/-- `SuggestionGenerator._diversity_suggestions`. -/
def SuggestionGenerator.diversity_suggestions (result : DimensionResult) (weight : ℚ) :
    List SuggestionData :=
  (if "low_color_diversity" ∈ result.contributing_factors then
    [{ suggestion_type := "add_item", dimension := "diversity", priority := 3,
       title := "Add more color variety",
       description := "Your wardrobe has limited color diversity.",
       why := "A diverse color palette enables more outfit combinations and helps you dress for different moods and occasions.",
       confidence := 4/5, expected_impact := some (weight * 8) }]
   else []) ++
  (if "low_style_diversity" ∈ result.contributing_factors then
    [{ suggestion_type := "add_item", dimension := "diversity", priority := 3,
       title := "Explore different styles",
       description := "Your wardrobe style variety is limited.",
       why := "Different style items help you adapt to various occasions from casual to formal settings.",
       confidence := 4/5, expected_impact := some (weight * 8) }]
   else [])

/-- `SuggestionGenerator._suggestions_for_dimension`: dispatch on the
dimension name. -/
def SuggestionGenerator.suggestions_for_dimension (dim_name : String)
    (result : DimensionResult) (weight : ℚ) (ctx : ScoringContext) : List SuggestionData :=
  if dim_name = "versatility" then SuggestionGenerator.versatility_suggestions result weight ctx
  else if dim_name = "utilization" then SuggestionGenerator.utilization_suggestions result weight ctx
  else if dim_name = "completeness" then SuggestionGenerator.completeness_suggestions result weight
  else if dim_name = "balance" then SuggestionGenerator.balance_suggestions result weight ctx
  else if dim_name = "diversity" then SuggestionGenerator.diversity_suggestions result weight
  else []

/-- The ascending-score order used to sort dimensions in
`SuggestionGenerator.generate` (Python `sorted` with key score is stable,
as is insertion sort with a non-strict order). -/
def dimLE (a b : String × DimensionResult × ℚ) : Prop :=
  a.2.1.score ≤ b.2.1.score

instance : DecidableRel dimLE := fun a b => by
  unfold dimLE; infer_instance

instance : IsTotal (String × DimensionResult × ℚ) dimLE :=
  ⟨fun a b => le_total a.2.1.score b.2.1.score⟩

instance : IsTrans (String × DimensionResult × ℚ) dimLE :=
  ⟨fun _ _ _ hab hbc => le_trans hab hbc⟩

/-- `s.expected_impact or 0`: the sort key component of the final sort. -/
def impactVal (s : SuggestionData) : ℚ :=
  s.expected_impact.getD 0

/-- The final suggestion order of `SuggestionGenerator.generate`: priority
ascending, then expected impact descending (the lexicographic order of the
Python key `(s.priority, -(s.expected_impact or 0))`). -/
def sugLE (s t : SuggestionData) : Prop :=
  s.priority < t.priority ∨ (s.priority = t.priority ∧ impactVal t ≤ impactVal s)

instance : DecidableRel sugLE := fun s t => by
  unfold sugLE; infer_instance

instance : IsTotal SuggestionData sugLE := by
  constructor
  intro a b
  rcases Nat.lt_trichotomy a.priority b.priority with h | h | h
  · exact Or.inl (Or.inl h)
  · rcases le_total (impactVal b) (impactVal a) with h2 | h2
    · exact Or.inl (Or.inr ⟨h, h2⟩)
    · exact Or.inr (Or.inr ⟨h.symm, h2⟩)
  · exact Or.inr (Or.inl h)

instance : IsTrans SuggestionData sugLE := by
  constructor
  intro a b c hab hbc
  rcases hab with h1 | ⟨h1, h1i⟩
  · rcases hbc with h2 | ⟨h2, _⟩
    · exact Or.inl (h1.trans h2)
    · exact Or.inl (h2 ▸ h1)
  · rcases hbc with h2 | ⟨h2, h2i⟩
    · exact Or.inl (h1 ▸ h2)
    · exact Or.inr ⟨h1.trans h2, h2i.trans h1i⟩

/-- `SuggestionGenerator.generate` from `app/services/quality/suggestions.py`. -/
def SuggestionGenerator.generate (ctx : ScoringContext)
    (dimension_results : List (String × DimensionResult × ℚ)) : List SuggestionData :=
  let sorted_dims := List.insertionSort dimLE dimension_results
  let suggestions :=
    (sorted_dims.filter (fun e => decide (e.2.1.score < 80))).flatMap
      (fun e => SuggestionGenerator.suggestions_for_dimension e.1 e.2.1 e.2.2 ctx)
  (List.insertionSort sugLE suggestions).take 10

/-- The suggestion batch produced by one `QualityEngine.compute_score`
invocation: the generator applied to the engine's dimension results. -/
def pipelineSuggestions (ctx : ScoringContext) (now : Int) : List SuggestionData :=
  SuggestionGenerator.generate ctx (QualityEngine.dimensionEntries ctx now)

/-- A bare item of the given id and category, all optional attributes unset. -/
def mkItem (n : Nat) (c : String) : Item :=
  { id := n, category := some c, kind := c, base_color := none, pattern := none,
    style_tags := [], event_tags := [], season_tags := [] }

/-- The empty snapshot: no items, outfits or wear logs. -/
def emptyCtx : ScoringContext :=
  { user_id := "u", items := [], outfits := [], wear_logs := [], item_wear_logs := [],
    outfit_wear_log_items := [], diversity_config := [] }

/-- A snapshot consisting of exactly three onepiece items and nothing else. -/
def threeOnepieceCtx : ScoringContext :=
  { emptyCtx with items := [mkItem 1 "onepiece", mkItem 2 "onepiece", mkItem 3 "onepiece"] }

/-- Three onepiece items together with one footwear and one outerwear item. -/
def onepieceFiveCtx : ScoringContext :=
  { emptyCtx with items := [mkItem 1 "onepiece", mkItem 2 "onepiece", mkItem 3 "onepiece",
      mkItem 4 "footwear", mkItem 5 "outerwear"] }

/-- Four tops, one bottom and one onepiece: the raw tops/bottoms ratio is
4 while the effective ratio is 5/2. -/
def rawImbalanceCtx : ScoringContext :=
  { emptyCtx with items := [mkItem 1 "top", mkItem 2 "top", mkItem 3 "top", mkItem 4 "top",
      mkItem 5 "bottom", mkItem 6 "onepiece"] }

/-- Four tops and one bottom: the effective ratio is 4, so the imbalance
factor is emitted. -/
def effImbalanceCtx : ScoringContext :=
  { emptyCtx with items := [mkItem 1 "top", mkItem 2 "top", mkItem 3 "top", mkItem 4 "top",
      mkItem 5 "bottom"] }

/-- Five tops and nothing else: three of the four core categories are
missing. -/
def fiveTopsCtx : ScoringContext :=
  { emptyCtx with items := [mkItem 1 "top", mkItem 2 "top", mkItem 3 "top", mkItem 4 "top",
      mkItem 5 "top"] }

/-- One outfit wear covering three items whose log also produced three
back-referenced standalone item-wear rows. -/
def dedupScenarioCtx : ScoringContext :=
  { emptyCtx with
      items := [mkItem 1 "top", mkItem 2 "bottom", mkItem 3 "footwear"],
      outfits := [{ id := 7, items := [{ item_id := 1, slot := "top" },
        { item_id := 2, slot := "bottom" }, { item_id := 3, slot := "shoes" }] }],
      wear_logs := [{ id := 10, worn_at := some 100, created_at := 50 }],
      outfit_wear_log_items := [{ wear_log_id := 10, item_id := 1 },
        { wear_log_id := 10, item_id := 2 }, { wear_log_id := 10, item_id := 3 }],
      item_wear_logs := [
        { id := 21, item_id := 1, worn_at := some 100, created_at := 50,
          source_outfit_log_id := some 10 },
        { id := 22, item_id := 2, worn_at := some 100, created_at := 50,
          source_outfit_log_id := some 10 },
        { id := 23, item_id := 3, worn_at := some 100, created_at := 50,
          source_outfit_log_id := some 10 }] }

/-- Five tops plus one outfit that has an empty item list: outfits exist but
none contains an item. -/
def emptyOutfitCtx : ScoringContext :=
  { fiveTopsCtx with outfits := [{ id := 9, items := [] }] }

/-- Five tops plus one outfit containing one of them. -/
def usedOutfitCtx : ScoringContext :=
  { fiveTopsCtx with outfits := [{ id := 9, items := [{ item_id := 1, slot := "top" }] }] }

/-- The back-referenced item-wear row added on top of `dedupScenarioCtx` by
the dedup witness. -/
def extraBackrefLog : ItemWearLog :=
  { id := 24, item_id := 1, worn_at := some 120, created_at := 60,
    source_outfit_log_id := some 10 }

/-- The property asserted by the bounds claim for a single dimension result:
the score lies in `[0, 100]` and the confidence in `[0, 1]`. -/
def resultBounded (r : DimensionResult) : Prop :=
  0 ≤ r.score ∧ r.score ≤ 100 ∧ 0 ≤ r.confidence ∧ r.confidence ≤ 1

/-- The `log_wear` suggestion the generator emits for the `no_wear_logs`
factor under the utilization weight. -/
def logWearSug : SuggestionData :=
  { suggestion_type := "log_wear", dimension := "utilization", priority := 1,
    title := "Start logging what you wear",
    description := "Track your outfits to see utilization patterns.",
    why := "Wear logging reveals which items you actually use versus which sit unworn, helping you make better wardrobe decisions.",
    confidence := 19/20, expected_impact := some (QUALITY_WEIGHT_UTILIZATION * 25) }

/-- The shape of the suggestion emitted for a missing core category:
`add_item` on the completeness dimension at priority 1 with expected impact
`weight * 12`. -/
def missingSuggestion (s : SuggestionData) : Bool :=
  decide (s.dimension = "completeness" ∧ s.suggestion_type = "add_item" ∧ s.priority = 1 ∧
    s.expected_impact = some (QUALITY_WEIGHT_COMPLETENESS * 12))

theorem clampScore_nonneg (v : ℚ) : 0 ≤ clampScore v :=
  le_max_left 0 _

theorem clampScore_le_hundred (v : ℚ) : clampScore v ≤ 100 :=
  max_le (by norm_num) (min_le_left _ _)

/-- C1: for every snapshot and preference configuration, the engine's
`total_score` and `total_confidence` are the weighted sums of the five
dimension scores and confidences under the fixed weights 0.30 / 0.25 /
0.20 / 0.15 / 0.10, and those weights sum to 1.0 within 0.01. -/
theorem engine_weighted_aggregation (ctx : ScoringContext) (now : Int) :
    QualityEngine.total_score ctx now =
      (VersatilityScorer.score ctx).score * QUALITY_WEIGHT_VERSATILITY +
      (UtilizationScorer.score ctx now).score * QUALITY_WEIGHT_UTILIZATION +
      (CompletenessScorer.score ctx).score * QUALITY_WEIGHT_COMPLETENESS +
      (BalanceScorer.score ctx).score * QUALITY_WEIGHT_BALANCE +
      (DiversityScorer.score ctx).score * QUALITY_WEIGHT_DIVERSITY ∧
    QualityEngine.total_confidence ctx now =
      (VersatilityScorer.score ctx).confidence * QUALITY_WEIGHT_VERSATILITY +
      (UtilizationScorer.score ctx now).confidence * QUALITY_WEIGHT_UTILIZATION +
      (CompletenessScorer.score ctx).confidence * QUALITY_WEIGHT_COMPLETENESS +
      (BalanceScorer.score ctx).confidence * QUALITY_WEIGHT_BALANCE +
      (DiversityScorer.score ctx).confidence * QUALITY_WEIGHT_DIVERSITY ∧
    |QUALITY_WEIGHT_VERSATILITY + QUALITY_WEIGHT_UTILIZATION + QUALITY_WEIGHT_COMPLETENESS +
      QUALITY_WEIGHT_BALANCE + QUALITY_WEIGHT_DIVERSITY - 1| ≤ 1/100 := by
  refine ⟨?_, ?_, ?_⟩
  · simp only [QualityEngine.total_score, QualityEngine.dimensionEntries, List.foldl]
    ring
  · simp only [QualityEngine.total_confidence, QualityEngine.dimensionEntries, List.foldl]
    ring
  · norm_num [QUALITY_WEIGHT_VERSATILITY, QUALITY_WEIGHT_UTILIZATION,
      QUALITY_WEIGHT_COMPLETENESS, QUALITY_WEIGHT_BALANCE, QUALITY_WEIGHT_DIVERSITY]

/-- C9: for every fixed snapshot and clock value, two runs of the scoring
pipeline produce the same `total_score`: the embedded pipeline is a pure
function of its inputs. -/
theorem compute_twice_same_total (ctx : ScoringContext) (now : Int) :
    (QualityEngine.computeTwice ctx now).1 = (QualityEngine.computeTwice ctx now).2 :=
  rfl

/-- C8: on the empty snapshot the completeness scorer returns score 0 with
an explanation containing "no items" (up to letter case, as checked by the
repository tests), and the versatility scorer returns score 0 with
confidence 0.3. -/
theorem empty_snapshot_defaults :
    (CompletenessScorer.score emptyCtx).score = 0 ∧
    strContains (strToLower (CompletenessScorer.score emptyCtx).why) "no items" = true ∧
    (VersatilityScorer.score emptyCtx).score = 0 ∧
    (VersatilityScorer.score emptyCtx).confidence = 3/10 := by
  decide

/-- C7 counterexample: a snapshot of exactly three onepiece items and
nothing else has fewer than 5 items, so the balance scorer returns the
insufficient-items default and its explanation does not contain "3:3". -/
theorem balance_three_onepiece_cex :
    ¬ strContains (BalanceScorer.score threeOnepieceCtx).why "3:3" = true := by
  decide

/-- C7 amended: three onepiece items together with one footwear and one
outerwear item (five items, still exactly three onepieces and no tops or
bottoms) yield a balance explanation containing "3:3". -/
theorem balance_three_onepiece_with_five_items :
    strContains (BalanceScorer.score onepieceFiveCtx).why "3:3" = true := by
  decide

/-- C6 counterexample: with four tops, one bottom and one onepiece the raw
(onepiece-excluded) tops/bottoms ratio is 4 > 3, yet the balance scorer
does not emit `imbalanced_tops_bottoms`, because the code tests the
effective ratio 5/2. -/
theorem balance_imbalance_raw_cex :
    5 ≤ rawImbalanceCtx.items_count ∧
    3 < (countCategory rawImbalanceCtx "top" : ℚ) / (countCategory rawImbalanceCtx "bottom" : ℚ) ∧
    "imbalanced_tops_bottoms" ∉ (BalanceScorer.score rawImbalanceCtx).contributing_factors := by
  refine ⟨by decide, by decide, by decide⟩

/-- C5 counterexample: five tops leave three core categories missing and
score the completeness dimension below 80, yet the pipeline emits exactly
one missing-category suggestion, not one per missing category. -/
theorem completeness_missing_per_category_cex :
    (missingCoreCategories fiveTopsCtx).length = 3 ∧
    (pipelineSuggestions fiveTopsCtx 0).countP missingSuggestion = 1 ∧
    (pipelineSuggestions fiveTopsCtx 0).countP missingSuggestion ≠
      (missingCoreCategories fiveTopsCtx).length := by
  refine ⟨by decide, by decide, by decide⟩

theorem foldl_utilItemStep_backref (extra : List ItemWearLog)
    (h : ∀ l ∈ extra, l.source_outfit_log_id ≠ none) (st : UtilState) :
    extra.foldl utilItemStep st = st := by
  induction extra generalizing st with
  | nil => rfl
  | cons a as ih =>
    have ha : a.source_outfit_log_id ≠ none := h a (by simp)
    have hstep : utilItemStep st a = st := by
      unfold utilItemStep
      cases hs : a.source_outfit_log_id with
      | some v => rfl
      | none => exact absurd hs ha
    rw [List.foldl_cons, hstep]
    exact ih (fun l hl => h l (by simp [hl])) st

theorem utilState_append_backref (ctx : ScoringContext) (extra : List ItemWearLog)
    (h : ∀ l ∈ extra, l.source_outfit_log_id ≠ none) :
    utilState { ctx with item_wear_logs := ctx.item_wear_logs ++ extra } = utilState ctx := by
  unfold utilState
  rw [show ({ ctx with item_wear_logs := ctx.item_wear_logs ++ extra } :
      ScoringContext).item_wear_logs = ctx.item_wear_logs ++ extra from rfl]
  rw [List.foldl_append]
  exact foldl_utilItemStep_backref extra h _

/-- C2: adding item-wear rows that carry an outfit back-reference to a
snapshot never changes the utilization result — such rows contribute
nothing beyond the `OutfitWearLogItem` counts — and in the concrete
scenario of one outfit wear covering three items whose log also produced
three back-referenced item-wear rows, exactly 3 distinct items are
counted as worn, not 6. -/
theorem utilization_backref_dedup :
    (∀ (ctx : ScoringContext) (extra : List ItemWearLog) (now : Int),
      (∀ l ∈ extra, l.source_outfit_log_id ≠ none) →
      UtilizationScorer.score { ctx with item_wear_logs := ctx.item_wear_logs ++ extra } now =
        UtilizationScorer.score ctx now) ∧
    utilItemsWorn dedupScenarioCtx = 3 := by
  constructor
  · intro ctx extra now h
    have hstate := utilState_append_backref ctx extra h
    have hic : ({ ctx with item_wear_logs := ctx.item_wear_logs ++ extra } :
        ScoringContext).items_count = ctx.items_count := rfl
    simp only [UtilizationScorer.score, hstate, hic]
  · decide

theorem utilization_backref_dedup_witness :
    UtilizationScorer.score
        { dedupScenarioCtx with
            item_wear_logs := dedupScenarioCtx.item_wear_logs ++ [extraBackrefLog] } 1000 =
      UtilizationScorer.score dedupScenarioCtx 1000 :=
  utilization_backref_dedup.1 dedupScenarioCtx [extraBackrefLog] 1000 (by decide)

theorem resultBounded_ite {c : Prop} [Decidable c] {a b : DimensionResult}
    (ha : resultBounded a) (hb : resultBounded b) : resultBounded (if c then a else b) := by
  split_ifs <;> assumption

theorem versatility_bounded (ctx : ScoringContext) :
    resultBounded (VersatilityScorer.score ctx) := by
  simp only [VersatilityScorer.score]
  refine resultBounded_ite ?_ (resultBounded_ite ?_ ?_)
  · exact ⟨by norm_num, by norm_num, by norm_num, by norm_num⟩
  · exact ⟨by norm_num, by norm_num, by norm_num, by norm_num⟩
  · exact ⟨clampScore_nonneg _, clampScore_le_hundred _,
      le_min (by norm_num) (by positivity),
      le_trans (min_le_left _ _) (by norm_num)⟩

theorem utilization_bounded (ctx : ScoringContext) (now : Int) :
    resultBounded (UtilizationScorer.score ctx now) := by
  simp only [UtilizationScorer.score]
  refine resultBounded_ite ?_ (resultBounded_ite ?_ ?_)
  · exact ⟨by norm_num, by norm_num, by norm_num, by norm_num⟩
  · exact ⟨by norm_num, by norm_num, by norm_num, by norm_num⟩
  · exact ⟨clampScore_nonneg _, clampScore_le_hundred _,
      le_min (by norm_num) (by positivity),
      le_trans (min_le_left _ _) (by norm_num)⟩

theorem completeness_bounded (ctx : ScoringContext) :
    resultBounded (CompletenessScorer.score ctx) := by
  simp only [CompletenessScorer.score]
  refine resultBounded_ite ?_ ?_
  · exact ⟨by norm_num, by norm_num, by norm_num, by norm_num⟩
  · exact ⟨clampScore_nonneg _, clampScore_le_hundred _, by norm_num, by norm_num⟩

theorem balance_bounded (ctx : ScoringContext) :
    resultBounded (BalanceScorer.score ctx) := by
  simp only [BalanceScorer.score]
  refine resultBounded_ite ?_ ?_
  · exact ⟨by norm_num, by norm_num, by norm_num, by norm_num⟩
  · exact ⟨clampScore_nonneg _, clampScore_le_hundred _, by norm_num, by norm_num⟩

theorem diversity_bounded (ctx : ScoringContext) :
    resultBounded (DiversityScorer.score ctx) := by
  simp only [DiversityScorer.score]
  refine resultBounded_ite ?_ (resultBounded_ite ?_ (resultBounded_ite ?_ ?_))
  · exact ⟨by norm_num, by norm_num, by norm_num, by norm_num⟩
  · exact ⟨by norm_num, by norm_num, by norm_num, by norm_num⟩
  · exact ⟨by norm_num, by norm_num, by norm_num, by norm_num⟩
  · exact ⟨clampScore_nonneg _, clampScore_le_hundred _, by norm_num, by norm_num⟩

/-- C3: for every snapshot, clock value and diversity configuration, each
of the five dimension scorers returns a score in `[0, 100]` and a
confidence in `[0, 1]`. -/
theorem dimension_results_bounded (ctx : ScoringContext) (now : Int) :
    resultBounded (VersatilityScorer.score ctx) ∧
    resultBounded (UtilizationScorer.score ctx now) ∧
    resultBounded (CompletenessScorer.score ctx) ∧
    resultBounded (BalanceScorer.score ctx) ∧
    resultBounded (DiversityScorer.score ctx) :=
  ⟨versatility_bounded ctx, utilization_bounded ctx now, completeness_bounded ctx,
    balance_bounded ctx, diversity_bounded ctx⟩

/-- C10: for every snapshot with at least five items in which no outfit
contains any item — outfits with empty item lists included — the
versatility scorer returns the no-outfits default, and the ratio branch is
entered only when some outfit item exists, in which case both of its
divisors (the distinct-used-item count and the total item count) are
positive. -/
theorem versatility_no_outfits_default :
    (∀ ctx : ScoringContext, 5 ≤ ctx.items_count → (∀ o ∈ ctx.outfits, o.items = []) →
      VersatilityScorer.score ctx =
        { score := 30, confidence := 1/2,
          why := "No outfits created yet. Create outfits to see item versatility.",
          contributing_factors := ["no_outfits"] }) ∧
    (∀ ctx : ScoringContext, 5 ≤ ctx.items_count → outfitItemIdsOf ctx ≠ [] →
      0 < (outfitItemIdsOf ctx).dedup.length ∧ 0 < ctx.items_count) := by
  constructor
  · intro ctx h5 hout
    have h5n : ¬ ctx.items_count < 5 := by omega
    have hids : outfitItemIdsOf ctx = [] := by
      simp only [outfitItemIdsOf, List.flatMap_eq_nil_iff]
      intro o ho
      simp [hout o ho]
    simp [VersatilityScorer.score, h5n, hids]
  · intro ctx h5 hne
    refine ⟨List.length_pos.2 ?_, by omega⟩
    simpa [List.dedup_eq_nil] using hne

theorem versatility_no_outfits_default_witness :
    VersatilityScorer.score emptyOutfitCtx =
      { score := 30, confidence := 1/2,
        why := "No outfits created yet. Create outfits to see item versatility.",
        contributing_factors := ["no_outfits"] } ∧
    (0 < (outfitItemIdsOf usedOutfitCtx).dedup.length ∧ 0 < usedOutfitCtx.items_count) :=
  ⟨versatility_no_outfits_default.1 emptyOutfitCtx (by decide) (by decide),
   versatility_no_outfits_default.2 usedOutfitCtx (by decide) (by decide)⟩

/-- C6 amended: for every snapshot with at least five items, the balance
scorer emits `imbalanced_tops_bottoms` exactly when the effective
(onepiece-included) bottoms count is positive and the effective
tops/bottoms ratio is greater than 3 or less than 0.5. -/
theorem balance_imbalance_effective_iff (ctx : ScoringContext)
    (h : 5 ≤ ctx.items_count) :
    "imbalanced_tops_bottoms" ∈ (BalanceScorer.score ctx).contributing_factors ↔
      (0 < effectiveBottoms ctx ∧
        (3 < (effectiveTops ctx : ℚ) / (effectiveBottoms ctx : ℚ) ∨
          (effectiveTops ctx : ℚ) / (effectiveBottoms ctx : ℚ) < 1/2)) := by
  have h5n : ¬ ctx.items_count < 5 := by omega
  simp only [BalanceScorer.score, h5n, if_false]
  split_ifs with hc
  · simpa using hc
  · simpa using hc

theorem balance_imbalance_effective_iff_witness :
    5 ≤ effImbalanceCtx.items_count ∧
    ("imbalanced_tops_bottoms" ∈ (BalanceScorer.score effImbalanceCtx).contributing_factors ↔
      (0 < effectiveBottoms effImbalanceCtx ∧
        (3 < (effectiveTops effImbalanceCtx : ℚ) / (effectiveBottoms effImbalanceCtx : ℚ) ∨
          (effectiveTops effImbalanceCtx : ℚ) / (effectiveBottoms effImbalanceCtx : ℚ) < 1/2))) :=
  ⟨by decide, balance_imbalance_effective_iff effImbalanceCtx (by decide)⟩

theorem mem_versatility_suggestions {s : SuggestionData} {r : DimensionResult} {w : ℚ}
    {ctx : ScoringContext} (h : s ∈ SuggestionGenerator.versatility_suggestions r w ctx) :
    s.dimension = "versatility" := by
  simp only [SuggestionGenerator.versatility_suggestions, List.mem_append] at h
  rcases h with h | h <;> (split_ifs at h <;> simp_all)

theorem mem_utilization_suggestions {s : SuggestionData} {r : DimensionResult} {w : ℚ}
    {ctx : ScoringContext} (h : s ∈ SuggestionGenerator.utilization_suggestions r w ctx) :
    s.dimension = "utilization" := by
  simp only [SuggestionGenerator.utilization_suggestions, List.mem_append] at h
  rcases h with h | h <;> (split_ifs at h <;> simp_all)

theorem mem_completeness_suggestions {s : SuggestionData} {r : DimensionResult} {w : ℚ}
    (h : s ∈ SuggestionGenerator.completeness_suggestions r w) :
    s.dimension = "completeness" := by
  simp only [SuggestionGenerator.completeness_suggestions, List.mem_append] at h
  rcases h with h | h
  · obtain ⟨a, -, rfl⟩ := List.mem_map.1 h
    rfl
  · split_ifs at h <;> simp_all

theorem mem_balance_suggestions {s : SuggestionData} {r : DimensionResult} {w : ℚ}
    {ctx : ScoringContext} (h : s ∈ SuggestionGenerator.balance_suggestions r w ctx) :
    s.dimension = "balance" := by
  simp only [SuggestionGenerator.balance_suggestions] at h
  split_ifs at h <;> simp_all

theorem mem_diversity_suggestions {s : SuggestionData} {r : DimensionResult} {w : ℚ}
    (h : s ∈ SuggestionGenerator.diversity_suggestions r w) :
    s.dimension = "diversity" := by
  simp only [SuggestionGenerator.diversity_suggestions, List.mem_append] at h
  rcases h with h | h <;> (split_ifs at h <;> simp_all)

theorem mem_suggestions_for_dimension {s : SuggestionData} {n : String}
    {r : DimensionResult} {w : ℚ} {ctx : ScoringContext}
    (h : s ∈ SuggestionGenerator.suggestions_for_dimension n r w ctx) :
    s.dimension = n := by
  unfold SuggestionGenerator.suggestions_for_dimension at h
  split_ifs at h with h1 h2 h3 h4 h5
  · rw [h1]; exact mem_versatility_suggestions h
  · rw [h2]; exact mem_utilization_suggestions h
  · rw [h3]; exact mem_completeness_suggestions h
  · rw [h4]; exact mem_balance_suggestions h
  · rw [h5]; exact mem_diversity_suggestions h
  · simp at h

/-- C4: for every snapshot and every list of dimension results, the
generated suggestion list has length at most 10, is sorted by priority
ascending and, within equal priority, by expected impact descending, and
every emitted suggestion comes from a dimension entry scoring below 80
and carries that dimension's name. -/
theorem generate_sorted_truncated_skips_high (ctx : ScoringContext)
    (dims : List (String × DimensionResult × ℚ)) :
    (SuggestionGenerator.generate ctx dims).length ≤ 10 ∧
    List.Pairwise sugLE (SuggestionGenerator.generate ctx dims) ∧
    (∀ s ∈ SuggestionGenerator.generate ctx dims,
      ∃ e ∈ dims, e.2.1.score < 80 ∧ s.dimension = e.1) := by
  refine ⟨?_, ?_, ?_⟩
  · simp only [SuggestionGenerator.generate]
    rw [List.length_take]
    exact min_le_left _ _
  · simp only [SuggestionGenerator.generate]
    exact List.Pairwise.sublist (List.take_sublist _ _)
      (List.sorted_insertionSort sugLE _)
  · intro s hs
    simp only [SuggestionGenerator.generate] at hs
    have hs1 := (List.take_sublist 10 _).subset hs
    have hs2 := (List.perm_insertionSort sugLE _).subset hs1
    obtain ⟨e, he, hse⟩ := List.mem_flatMap.1 hs2
    obtain ⟨he1, he2⟩ := List.mem_filter.1 he
    exact ⟨e, (List.perm_insertionSort dimLE dims).subset he1, by simpa using he2,
      mem_suggestions_for_dimension hse⟩

theorem generate_sorted_truncated_skips_high_witness :
    ∃ e ∈ QualityEngine.dimensionEntries fiveTopsCtx 0,
      e.2.1.score < 80 ∧ logWearSug.dimension = e.1 :=
  (generate_sorted_truncated_skips_high fiveTopsCtx
      (QualityEngine.dimensionEntries fiveTopsCtx 0)).2.2 logWearSug (by decide)

theorem charsStartWith_nil (s : List Char) : charsStartWith s [] = true := by
  cases s <;> rfl

theorem charsStartWith_append (p rest : List Char) : charsStartWith (p ++ rest) p = true := by
  induction p with
  | nil => simp [charsStartWith_nil]
  | cons c cs ih => simp [charsStartWith, ih]

theorem strStartsWith_append (a b : String) : strStartsWith (a ++ b) a = true := by
  have h := charsStartWith_append a.data b.data
  simpa [strStartsWith] using h

theorem countP_flatMap (p : β → Bool) (f : α → List β) (l : List α) :
    (l.flatMap f).countP p = (l.map (fun a => (f a).countP p)).sum := by
  induction l with
  | nil => rfl
  | cons a t ih => simp [List.flatMap_cons, List.countP_append, ih]

theorem length_flatMap_sum (f : α → List β) (l : List α) :
    (l.flatMap f).length = (l.map (fun a => (f a).length)).sum := by
  induction l with
  | nil => rfl
  | cons a t ih => simp [List.flatMap_cons, ih]

theorem sum_map_filter_eq (q : α → Bool) (g : α → Nat) (l : List α) :
    ((l.filter q).map g).sum = (l.map (fun a => if q a then g a else 0)).sum := by
  induction l with
  | nil => rfl
  | cons a t ih =>
    cases hq : q a <;> simp [List.filter_cons, hq, ih]

theorem versatility_suggestions_length_le (r : DimensionResult) (w : ℚ)
    (ctx : ScoringContext) :
    (SuggestionGenerator.versatility_suggestions r w ctx).length ≤ 2 := by
  simp only [SuggestionGenerator.versatility_suggestions, List.length_append]
  split_ifs <;> simp

theorem utilization_suggestions_length_le (r : DimensionResult) (w : ℚ)
    (ctx : ScoringContext) :
    (SuggestionGenerator.utilization_suggestions r w ctx).length ≤ 2 := by
  simp only [SuggestionGenerator.utilization_suggestions, List.length_append]
  split_ifs <;> simp

theorem completeness_suggestions_length_le (r : DimensionResult) (w : ℚ) :
    (SuggestionGenerator.completeness_suggestions r w).length ≤
      r.contributing_factors.length + 1 := by
  simp only [SuggestionGenerator.completeness_suggestions, List.length_append,
    List.length_map]
  have hf := List.length_filter_le (fun f => strStartsWith f "missing_")
    r.contributing_factors
  split_ifs <;> simp <;> omega

theorem balance_suggestions_length_le (r : DimensionResult) (w : ℚ)
    (ctx : ScoringContext) :
    (SuggestionGenerator.balance_suggestions r w ctx).length ≤ 2 := by
  simp only [SuggestionGenerator.balance_suggestions]
  split_ifs <;> simp

theorem diversity_suggestions_length_le (r : DimensionResult) (w : ℚ) :
    (SuggestionGenerator.diversity_suggestions r w).length ≤ 2 := by
  simp only [SuggestionGenerator.diversity_suggestions, List.length_append]
  split_ifs <;> simp

theorem countP_missingSuggestion_versatility (r : DimensionResult) (w : ℚ)
    (ctx : ScoringContext) :
    (SuggestionGenerator.versatility_suggestions r w ctx).countP missingSuggestion = 0 := by
  rw [List.countP_eq_zero]
  intro s hs
  have hd := mem_versatility_suggestions hs
  simp [missingSuggestion, hd]

theorem countP_missingSuggestion_utilization (r : DimensionResult) (w : ℚ)
    (ctx : ScoringContext) :
    (SuggestionGenerator.utilization_suggestions r w ctx).countP missingSuggestion = 0 := by
  rw [List.countP_eq_zero]
  intro s hs
  have hd := mem_utilization_suggestions hs
  simp [missingSuggestion, hd]

theorem countP_missingSuggestion_balance (r : DimensionResult) (w : ℚ)
    (ctx : ScoringContext) :
    (SuggestionGenerator.balance_suggestions r w ctx).countP missingSuggestion = 0 := by
  rw [List.countP_eq_zero]
  intro s hs
  have hd := mem_balance_suggestions hs
  simp [missingSuggestion, hd]

theorem countP_missingSuggestion_diversity (r : DimensionResult) (w : ℚ) :
    (SuggestionGenerator.diversity_suggestions r w).countP missingSuggestion = 0 := by
  rw [List.countP_eq_zero]
  intro s hs
  have hd := mem_diversity_suggestions hs
  simp [missingSuggestion, hd]

theorem countP_missingSuggestion_completeness (r : DimensionResult) :
    (SuggestionGenerator.completeness_suggestions r
        QUALITY_WEIGHT_COMPLETENESS).countP missingSuggestion =
      (r.contributing_factors.filter (fun f => strStartsWith f "missing_")).length := by
  simp only [SuggestionGenerator.completeness_suggestions, List.countP_append]
  have h1 : ∀ l : List String,
      (l.map (fun f =>
        ({ suggestion_type := "add_item", dimension := "completeness", priority := 1,
           title := "Add " ++ stripMissing f ++ " to your wardrobe",
           description := "You\x27re missing items in the " ++ stripMissing f ++ " category.",
           why := "A complete wardrobe needs " ++ stripMissing f ++
             ". Adding this category will improve outfit options and completeness score.",
           confidence := 19/20,
           expected_impact := some (QUALITY_WEIGHT_COMPLETENESS * 12) } : SuggestionData))).countP
        missingSuggestion = l.length := by
    intro l
    induction l with
    | nil => rfl
    | cons a t ih =>
      rw [List.map_cons, List.countP_cons, ih]
      simp [missingSuggestion]
  rw [h1]
  split_ifs with hw
  · rw [List.countP_cons]
    simp [missingSuggestion, QUALITY_WEIGHT_COMPLETENESS]
  · simp

theorem completeness_factors_of_missing (ctx : ScoringContext)
    (hne : ¬ ctx.items_count = 0) {m : String} {rest : List String}
    (hm : missingCoreCategories ctx = m :: rest) :
    (CompletenessScorer.score ctx).contributing_factors = ["missing_" ++ m] := by
  simp [CompletenessScorer.score, hne, hm]

theorem completeness_factors_length_le (ctx : ScoringContext) :
    (CompletenessScorer.score ctx).contributing_factors.length ≤ 1 := by
  simp only [CompletenessScorer.score]
  by_cases h : ctx.items_count = 0
  · simp [h]
  · rw [if_neg h]
    cases hm : missingCoreCategories ctx <;> simp [hm]

theorem suggestions_for_versatility (r : DimensionResult) (w : ℚ) (ctx : ScoringContext) :
    SuggestionGenerator.suggestions_for_dimension "versatility" r w ctx =
      SuggestionGenerator.versatility_suggestions r w ctx := by
  simp [SuggestionGenerator.suggestions_for_dimension]

theorem suggestions_for_utilization (r : DimensionResult) (w : ℚ) (ctx : ScoringContext) :
    SuggestionGenerator.suggestions_for_dimension "utilization" r w ctx =
      SuggestionGenerator.utilization_suggestions r w ctx := by
  simp [SuggestionGenerator.suggestions_for_dimension]

theorem suggestions_for_completeness (r : DimensionResult) (w : ℚ) (ctx : ScoringContext) :
    SuggestionGenerator.suggestions_for_dimension "completeness" r w ctx =
      SuggestionGenerator.completeness_suggestions r w := by
  simp [SuggestionGenerator.suggestions_for_dimension]

theorem suggestions_for_balance (r : DimensionResult) (w : ℚ) (ctx : ScoringContext) :
    SuggestionGenerator.suggestions_for_dimension "balance" r w ctx =
      SuggestionGenerator.balance_suggestions r w ctx := by
  simp [SuggestionGenerator.suggestions_for_dimension]

theorem suggestions_for_diversity (r : DimensionResult) (w : ℚ) (ctx : ScoringContext) :
    SuggestionGenerator.suggestions_for_dimension "diversity" r w ctx =
      SuggestionGenerator.diversity_suggestions r w := by
  simp [SuggestionGenerator.suggestions_for_dimension]

theorem sum_map_le_two_mul {g : α → Nat} :
    ∀ l : List α, (∀ a ∈ l, g a ≤ 2) → (l.map g).sum ≤ 2 * l.length := by
  intro l h
  induction l with
  | nil => simp
  | cons a t ih =>
    have ha := h a (by simp)
    have ht := ih (fun b hb => h b (by simp [hb]))
    simp only [List.map_cons, List.sum_cons, List.length_cons]
    omega

/-- C5 amended: for every non-empty snapshot with at least one missing core
category and completeness score below 80, the pipeline emits exactly one
priority-1 `add_item` completeness suggestion with expected impact
`weight * 12` — for the first missing core category only — regardless of
how many core categories are missing. -/
theorem completeness_missing_single_suggestion (ctx : ScoringContext) (now : Int)
    (hne : ctx.items ≠ []) (hmiss : missingCoreCategories ctx ≠ [])
    (hlt : (CompletenessScorer.score ctx).score < 80) :
    (pipelineSuggestions ctx now).countP missingSuggestion = 1 := by
  obtain ⟨m, rest, hm⟩ : ∃ m rest, missingCoreCategories ctx = m :: rest := by
    cases hmc : missingCoreCategories ctx with
    | nil => exact absurd hmc hmiss
    | cons a t => exact ⟨a, t, rfl⟩
  have hne0 : ¬ ctx.items_count = 0 := by
    simpa [ScoringContext.items_count, List.length_eq_zero] using hne
  have hfac := completeness_factors_of_missing ctx hne0 hm
  have hperm1 : List.Perm (List.insertionSort dimLE (QualityEngine.dimensionEntries ctx now))
      (QualityEngine.dimensionEntries ctx now) := List.perm_insertionSort _ _
  have hperm2 := (hperm1.filter (fun e => decide (e.2.1.score < 80))).flatMap_right
    (fun e => SuggestionGenerator.suggestions_for_dimension e.1 e.2.1 e.2.2 ctx)
  have hcanon : (((QualityEngine.dimensionEntries ctx now).filter
      (fun e => decide (e.2.1.score < 80))).flatMap
        (fun e => SuggestionGenerator.suggestions_for_dimension e.1 e.2.1 e.2.2 ctx)).countP
      missingSuggestion = 1 := by
    rw [countP_flatMap, sum_map_filter_eq]
    simp only [QualityEngine.dimensionEntries, List.map_cons, List.map_nil,
      List.sum_cons, List.sum_nil]
    simp only [suggestions_for_versatility, suggestions_for_utilization,
      suggestions_for_completeness, suggestions_for_balance, suggestions_for_diversity]
    simp only [countP_missingSuggestion_versatility, countP_missingSuggestion_utilization,
      countP_missingSuggestion_completeness, countP_missingSuggestion_balance,
      countP_missingSuggestion_diversity]
    simp only [ite_self, decide_eq_true_eq]
    rw [if_pos hlt, hfac]
    simp [strStartsWith_append]
  have hmem2 : ∀ e ∈ (List.insertionSort dimLE
      (QualityEngine.dimensionEntries ctx now)).filter (fun e => decide (e.2.1.score < 80)),
      (SuggestionGenerator.suggestions_for_dimension e.1 e.2.1 e.2.2 ctx).length ≤ 2 := by
    intro e he
    have he1 : e ∈ QualityEngine.dimensionEntries ctx now :=
      hperm1.subset (List.mem_filter.1 he).1
    simp only [QualityEngine.dimensionEntries, List.mem_cons] at he1
    rcases he1 with rfl | rfl | rfl | rfl | rfl | hend
    · simpa [suggestions_for_versatility] using
        versatility_suggestions_length_le (VersatilityScorer.score ctx)
          QUALITY_WEIGHT_VERSATILITY ctx
    · simpa [suggestions_for_utilization] using
        utilization_suggestions_length_le (UtilizationScorer.score ctx now)
          QUALITY_WEIGHT_UTILIZATION ctx
    · have h1 := completeness_suggestions_length_le (CompletenessScorer.score ctx)
        QUALITY_WEIGHT_COMPLETENESS
      have h2 := completeness_factors_length_le ctx
      simp only [suggestions_for_completeness]
      omega
    · simpa [suggestions_for_balance] using
        balance_suggestions_length_le (BalanceScorer.score ctx) QUALITY_WEIGHT_BALANCE ctx
    · simpa [suggestions_for_diversity] using
        diversity_suggestions_length_le (DiversityScorer.score ctx) QUALITY_WEIGHT_DIVERSITY
    · simp at hend
  have hlen : (((List.insertionSort dimLE (QualityEngine.dimensionEntries ctx now)).filter
      (fun e => decide (e.2.1.score < 80))).flatMap
        (fun e => SuggestionGenerator.suggestions_for_dimension e.1 e.2.1 e.2.2 ctx)).length
      ≤ 10 := by
    rw [length_flatMap_sum]
    have hsum := sum_map_le_two_mul _ hmem2
    have hflen : ((List.insertionSort dimLE (QualityEngine.dimensionEntries ctx now)).filter
        (fun e => decide (e.2.1.score < 80))).length ≤ 5 := by
      have h1 := List.length_filter_le (fun e : String × DimensionResult × ℚ =>
        decide (e.2.1.score < 80))
        (List.insertionSort dimLE (QualityEngine.dimensionEntries ctx now))
      have h2 : (List.insertionSort dimLE (QualityEngine.dimensionEntries ctx now)).length =
          5 := by
        rw [hperm1.length_eq]
        rfl
      omega
    omega
  simp only [pipelineSuggestions, SuggestionGenerator.generate]
  rw [List.take_of_length_le (by rw [(List.perm_insertionSort sugLE _).length_eq]; exact hlen)]
  rw [(List.perm_insertionSort sugLE _).countP_eq]
  exact (hperm2.countP_eq _).trans hcanon

theorem completeness_missing_single_suggestion_witness :
    (pipelineSuggestions fiveTopsCtx 3).countP missingSuggestion = 1 :=
  completeness_missing_single_suggestion fiveTopsCtx 3 (by decide) (by decide) (by decide)

end WardrobeQuality
